import Mathlib

/-
Verification of the wikipedia_mobile_tests repository: a shallow embedding
of the page-object / handler / driver layer (src/pages and src/utils) and
proofs about the stated behaviour of its wait, retry, field-clearing and
teardown logic.

Modelling conventions:
- Exceptions raised by the remote driver are the inductive type `Ex`;
  fallible Python code becomes a Lean function into `Except Ex _`.
- The outcome of an underlying driver call (a `WebDriverWait(...).until(...)`
  call, a `get_attribute` call, a `driver.quit()` call, ...) is passed to the
  embedded function as an explicit argument, since in Python it is the
  nondeterministic response of the remote automation server.
- A retried function's successive underlying attempts are a sequence
  `f : Nat -> Except Ex _` where `f k` is the outcome of the k-th call.
- Python dictionaries with fixed keys become structures plus an explicit
  `toDict` view as an association list, so that key-set claims are statable.
-/

namespace WikiTests

/-- Exceptions observable in the repository: selenium TimeoutException,
selenium NoSuchElementException, and any other exception (message). -/
inductive Ex where
  | timeout
  | noSuchElement
  | webdriver (msg : String)
deriving DecidableEq, Repr

/-- A UI element handle as the code uses it: its text, whether it is
displayed and enabled, and its attributes (absent attribute = Python None). -/
structure Element where
  text : String
  displayed : Bool
  enabled : Bool
  attrs : List (String × String)
deriving DecidableEq, Repr

/-- element.get_attribute(name): the attribute value, or None when absent. -/
def Element.get_attribute (e : Element) (name : String) : Option String :=
  e.attrs.lookup name

/-- Python truthiness of an Optional[str]: None and the empty string are
falsy, every other string is truthy. -/
def truthyOptStr : Option String → Bool
  | none => false
  | some s => s ≠ ""

end WikiTests

namespace WikiTests

/-
Field-clearing statistics
(src/pages/handlers/field_handler.py, src/pages/auth_page.py)
-/

/-- The statistics dictionary built by clear_all_possible_inputs:
keys fields_found, fields_cleared, fields_failed, integer values. -/
structure FieldStats where
  fields_found : Int
  fields_cleared : Int
  fields_failed : Int
deriving DecidableEq, Repr

/-- The dictionary view of FieldStats: the literal dict the Python code
returns, as an association list in insertion order. -/
def FieldStats.toDict (s : FieldStats) : List (String × Int) :=
  [("fields_found", s.fields_found),
   ("fields_cleared", s.fields_cleared),
   ("fields_failed", s.fields_failed)]

/-- One iteration of the clearing loop: `field.clear()` either succeeds
(increment fields_cleared) or raises (caught; increment fields_failed).
The Bool is whether the clear succeeded. -/
def clearStep (s : FieldStats) (ok : Bool) : FieldStats :=
  if ok then { s with fields_cleared := s.fields_cleared + 1 }
  else { s with fields_failed := s.fields_failed + 1 }

namespace FieldHandler

/-- FieldHandler.clear_all_possible_inputs
(src/pages/handlers/field_handler.py lines 13-40).
`find` is the outcome of self._find_all_input_fields(): either the list of
fields (each Bool records whether its clear() call succeeds) or a raised
exception. stats starts at all zeroes; on a raise the except branch logs and
the initial stats dict is returned; otherwise fields_found is set to
len(fields) and the loop runs clearStep over the fields. -/
def clear_all_possible_inputs (find : Except Ex (List Bool)) : FieldStats :=
  match find with
  | .error _ => ⟨0, 0, 0⟩
  | .ok fields => fields.foldl clearStep ⟨(fields.length : Int), 0, 0⟩

end FieldHandler

namespace AuthPage

/-- AuthPage._find_all_input_fields (src/pages/auth_page.py lines 378-391):
finds text and secure-text fields; any exception is caught, logged, and the
empty list is returned. -/
def find_all_input_fields (find : Except Ex (List Bool)) : List Bool :=
  match find with
  | .ok fields => fields
  | .error _ => []

/-- AuthPage.clear_all_possible_inputs (src/pages/auth_page.py lines 352-376).
The try body builds the stats dict from the found fields and runs the
clearing loop (each field clear either succeeds or is caught and counted as
failed); the except branch returns the all-zero dict. The .error case here
is that except branch, reached when finding the fields raises past
find_all_input_fields; the function never raises, so its result is always
Except.ok. -/
def clear_all_possible_inputs (find : Except Ex (List Bool)) : Except Ex FieldStats :=
  match find with
  | .error _ => .ok ⟨0, 0, 0⟩
  | .ok raw =>
      let input_fields := find_all_input_fields (.ok raw)
      .ok (input_fields.foldl clearStep ⟨(input_fields.length : Int), 0, 0⟩)

end AuthPage

/-- The clearing loop preserves fields_found and adds exactly the number of
processed fields to fields_cleared + fields_failed. -/
theorem clearStep_foldl_spec (fields : List Bool) :
    ∀ s : FieldStats,
      (fields.foldl clearStep s).fields_found = s.fields_found ∧
      (fields.foldl clearStep s).fields_cleared
          + (fields.foldl clearStep s).fields_failed
        = s.fields_cleared + s.fields_failed + (fields.length : Int) := by
  induction fields with
  | nil => intro s; simp
  | cons b bs ih =>
      intro s
      have h := ih (clearStep s b)
      cases b <;>
        simp only [List.foldl_cons, List.length_cons] at h ⊢ <;>
        · refine ⟨by simpa [clearStep] using h.1, ?_⟩
          rw [h.2]
          simp [clearStep]
          ring

/-- The clearing loop keeps every counter non-negative. -/
theorem clearStep_foldl_nonneg (fields : List Bool) :
    ∀ s : FieldStats,
      0 ≤ s.fields_found → 0 ≤ s.fields_cleared → 0 ≤ s.fields_failed →
      0 ≤ (fields.foldl clearStep s).fields_found ∧
      0 ≤ (fields.foldl clearStep s).fields_cleared ∧
      0 ≤ (fields.foldl clearStep s).fields_failed := by
  induction fields with
  | nil => intro s h1 h2 h3; exact ⟨h1, h2, h3⟩
  | cons b bs ih =>
      intro s h1 h2 h3
      cases b <;>
        · refine ih _ ?_ ?_ ?_ <;> simp [clearStep] <;> omega

/-
The retry decorator (src/utils/driver.py lines 28-48)
-/

/-- Outcome of a call to a retry_on_failure-wrapped function: a normal
return, a re-raised exception, or the fall-through `return None` reached
only when the while loop body never runs (max_attempts = 0). -/
inductive RetryResult (ε α : Type) where
  | returned (a : α)
  | raised (e : ε)
  | fellThrough
deriving DecidableEq, Repr

/-- The wrapper's while loop (src/utils/driver.py lines 35-46).
`f k` is the outcome of the k-th call of the wrapped function, `i` the index
of the next call, `n` the remaining loop iterations (max_attempts - attempts).
Returns the loop's outcome together with the number of calls made and the
number of sleeps performed: on success return immediately; on failure, if
this was the last permitted attempt re-raise, otherwise sleep and retry. -/
def retryGo (f : Nat → Except ε α) (i : Nat) : Nat → RetryResult ε α × Nat × Nat
  | 0 => (.fellThrough, 0, 0)
  | n + 1 =>
      match f i with
      | .ok a => (.returned a, 1, 0)
      | .error e =>
          if n = 0 then (.raised e, 1, 0)
          else
            let r := retryGo f (i + 1) n
            (r.1, r.2.1 + 1, r.2.2 + 1)

/-- retry_on_failure(max_attempts, delay) applied to a function whose k-th
call has outcome f k: the loop outcome, the number of calls made, and the
total seconds slept (delay seconds per sleep). Defaults match the Python
signature: max_attempts=3, delay=1. -/
def retry_on_failure (max_attempts : Nat := 3) (delay : Nat := 1)
    (f : Nat → Except ε α) : RetryResult ε α × Nat × Nat :=
  let r := retryGo f 0 max_attempts
  (r.1, r.2.1, r.2.2 * delay)

/-- The wrapped function is called at most as many times as the remaining
iteration budget. -/
theorem retryGo_calls_le (f : Nat → Except ε α) :
    ∀ n i, (retryGo f i n).2.1 ≤ n := by
  intro n
  induction n with
  | zero => intro i; simp [retryGo]
  | succ m ih =>
      intro i
      cases hf : f i with
      | ok a => simp [retryGo, hf]
      | error e =>
          by_cases hm : m = 0
          · simp [retryGo, hf, hm]
          · have := ih (i + 1)
            simp only [retryGo, hf, if_neg hm]
            omega

/-- If the calls at offsets i, ..., i+j-1 all fail and the call at offset
i+j succeeds within the budget, the loop returns that value after j+1 calls
and j sleeps. -/
theorem retryGo_first_success (f : Nat → Except ε α) :
    ∀ j n i a, j < n →
      (∀ k, k < j → ∃ e, f (i + k) = .error e) →
      f (i + j) = .ok a →
      retryGo f i n = (.returned a, j + 1, j) := by
  intro j
  induction j with
  | zero =>
      intro n i a hj _ hok
      obtain ⟨m, rfl⟩ : ∃ m, n = m + 1 := ⟨n - 1, by omega⟩
      simp only [Nat.add_zero] at hok
      simp [retryGo, hok]
  | succ j ih =>
      intro n i a hj hfail hok
      obtain ⟨m, rfl⟩ : ∃ m, n = m + 1 := ⟨n - 1, by omega⟩
      obtain ⟨e, he⟩ := hfail 0 (Nat.succ_pos j)
      rw [Nat.add_zero] at he
      have hm : m ≠ 0 := by omega
      have hrec : retryGo f (i + 1) m = (.returned a, j + 1, j) := by
        refine ih m (i + 1) a (by omega) ?_ ?_
        · intro k hk
          obtain ⟨e2, he2⟩ := hfail (k + 1) (by omega)
          exact ⟨e2, by rw [← he2]; ring_nf⟩
        · rw [← hok]; ring_nf
      simp [retryGo, he, hm, hrec]

/-- If all n calls starting at offset i fail (n ≥ 1), the loop re-raises the
exception of the last call, after exactly n calls and n-1 sleeps. -/
theorem retryGo_all_fail (f : Nat → Except ε α) :
    ∀ n i, 1 ≤ n →
      (∀ k, k < n → ∃ e, f (i + k) = .error e) →
      ∃ e, f (i + (n - 1)) = .error e ∧
        retryGo f i n = (.raised e, n, n - 1) := by
  intro n
  induction n with
  | zero => intro i h; omega
  | succ m ih =>
      intro i _ hfail
      by_cases hm : m = 0
      · subst hm
        obtain ⟨e, he⟩ := hfail 0 Nat.one_pos
        rw [Nat.add_zero] at he
        exact ⟨e, by simpa using he, by simp [retryGo, he]⟩
      · obtain ⟨e0, he0⟩ := hfail 0 (Nat.succ_pos m)
        rw [Nat.add_zero] at he0
        obtain ⟨e, he, hrec⟩ := ih (i + 1) (by omega) (by
          intro k hk
          obtain ⟨e2, he2⟩ := hfail (k + 1) (by omega)
          exact ⟨e2, by rw [← he2]; ring_nf⟩)
        refine ⟨e, ?_, ?_⟩
        · rw [← he]
          congr 1
          omega
        · have hm1 : m - 1 + 1 = m := by omega
          simp only [retryGo, he0, if_neg hm, hrec]
          simp [Nat.succ_sub_one, hm1]

/-
Timed waits. WebDriverWait(driver, timeout).until(condition(locator)) polls
the expected condition and returns the element as soon as the condition
holds, raising TimeoutException if it never holds within timeout seconds.
A wait scenario records the element the locator resolves to and the first
poll time (seconds) at which the expected condition holds for it
(none = it never holds).
-/

/-- A scenario for one timed wait: the element and the earliest time at
which the expected condition holds for it. -/
structure WaitScenario where
  elem : Element
  condMetAt : Option Nat
deriving DecidableEq, Repr

/-- WebDriverWait(driver, timeout).until(condition(locator)): returns the
element if the condition is met within timeout seconds, and otherwise
raises TimeoutException; the second component is the time spent blocking
(the wait returns as soon as the condition holds, and gives up at the
timeout). -/
def webDriverWait_until (timeout : Nat) (s : WaitScenario) :
    Except Ex Element × Nat :=
  match s.condMetAt with
  | some t => if t ≤ timeout then (.ok s.elem, t) else (.error .timeout, timeout)
  | none => (.error .timeout, timeout)

/-
BasePage (src/pages/base_page.py). Each helper wraps a single
WebDriverWait(...).until(...) call in try/except; the argument r is that
call's outcome.
-/

namespace BasePage

/-- Default timeout of BasePage._wait_for_element (and of the clickable and
visible variants): 10 seconds. -/
def default_timeout : Nat := 10

/-- Timeout used by _is_element_present and _is_element_visible: 5 seconds. -/
def check_timeout : Nat := 5

/-- BasePage._wait_for_element (src/pages/base_page.py lines 17-38): on
success the element is returned; on TimeoutException the error and the page
source are logged and the exception re-raised; other exceptions are not
caught. The second component is the log output. -/
def wait_for_element (r : Except Ex Element) : Except Ex Element × List String :=
  match r with
  | .ok e => (.ok e, [])
  | .error .timeout =>
      (.error .timeout, ["Timeout waiting for element", "Current page source"])
  | .error ex => (.error ex, [])

/-- BasePage._wait_for_visible: same wrapper, with the visibility expected
condition passed to the wait; r is that wait's outcome. -/
def wait_for_visible (r : Except Ex Element) : Except Ex Element × List String :=
  wait_for_element r

/-- BasePage._wait_for_clickable: same wrapper with the clickable expected
condition; r is that wait's outcome. -/
def wait_for_clickable (r : Except Ex Element) : Except Ex Element × List String :=
  wait_for_element r

/-- BasePage._is_element_present (lines 60-66): True on success, False when
the wait raises TimeoutException or NoSuchElementException; other
exceptions propagate. -/
def is_element_present (r : Except Ex Element) : Except Ex Bool :=
  match (wait_for_element r).1 with
  | .ok _ => .ok true
  | .error .timeout => .ok false
  | .error .noSuchElement => .ok false
  | .error ex => .error ex

/-- BasePage._is_element_visible (lines 68-74): element.is_displayed() on a
successful visibility wait, False when the wait raises TimeoutException or
NoSuchElementException; other exceptions propagate. -/
def is_element_visible (r : Except Ex Element) : Except Ex Bool :=
  match (wait_for_visible r).1 with
  | .ok e => .ok e.displayed
  | .error .timeout => .ok false
  | .error .noSuchElement => .ok false
  | .error ex => .error ex

/-- BasePage._get_element_text (lines 76-82): element.text on success, None
when the visibility wait raises TimeoutException or NoSuchElementException;
other exceptions propagate. -/
def get_element_text (r : Except Ex Element) : Except Ex (Option String) :=
  match (wait_for_visible r).1 with
  | .ok e => .ok (some e.text)
  | .error .timeout => .ok none
  | .error .noSuchElement => .ok none
  | .error ex => .error ex

/-- BasePage._get_element_attribute (lines 84-91): the attribute value on
success, None when the wait raises TimeoutException or
NoSuchElementException; other exceptions propagate. -/
def get_element_attribute (r : Except Ex Element) (name : String) :
    Except Ex (Option String) :=
  match (wait_for_element r).1 with
  | .ok e => .ok (e.get_attribute name)
  | .error .timeout => .ok none
  | .error .noSuchElement => .ok none
  | .error ex => .error ex

end BasePage

/-
BaseHandler (src/pages/handlers/base_handler.py): wait helpers that convert
a timeout into None instead of re-raising.
-/

namespace BaseHandler

/-- BaseHandler._wait_for_visible (src/pages/handlers/base_handler.py lines
15-23): returns the element on a successful visibility wait; on
TimeoutException logs a warning and returns None; other exceptions are not
caught. -/
def wait_for_visible (r : Except Ex Element) : Except Ex (Option Element) :=
  match r with
  | .ok e => .ok (some e)
  | .error .timeout => .ok none
  | .error ex => .error ex

/-- BaseHandler._wait_for_clickable (lines 25-33): same conversion for the
clickable wait. -/
def wait_for_clickable (r : Except Ex Element) : Except Ex (Option Element) :=
  match r with
  | .ok e => .ok (some e)
  | .error .timeout => .ok none
  | .error ex => .error ex

end BaseHandler

/-
Driver (src/utils/driver.py)
-/

namespace Driver

/-- Timeout (seconds) default of Driver.wait_for_element: 10. -/
def wait_timeout : Nat := 10

/-- Timeout (seconds) default of Driver.is_element_present: 5. -/
def presence_timeout : Nat := 5

/-- Driver.wait_for_element (src/utils/driver.py lines 113-128): the body
logs and re-raises every exception of the underlying wait, and the whole
method is decorated with @retry_on_failure(max_attempts=3, delay=1), so
each of up to 3 attempts performs one wait; f k is the outcome of the k-th
attempt's wait. -/
def wait_for_element (f : Nat → Except Ex Element) :
    RetryResult Ex Element × Nat × Nat :=
  retry_on_failure 3 1 f

/-- Driver.init_driver (src/utils/driver.py lines 57-111): builds the
session options and opens the remote session once; on any exception it logs
and re-raises. It carries no retry decorator, so exactly one session
attempt is made; f k is the outcome the k-th session attempt would have.
Result format matches wait_for_element: (outcome, calls made, seconds
slept). -/
def init_driver (f : Nat → Except Ex Unit) : RetryResult Ex Unit × Nat × Nat :=
  match f 0 with
  | .ok a => (.returned a, 1, 0)
  | .error e => (.raised e, 1, 0)

/-- Driver.is_element_present (src/utils/driver.py lines 130-138): calls
the retried wait_for_element; True if it returns, False if it raises
TimeoutException or NoSuchElementException; other exceptions propagate.
(The fellThrough branch corresponds to the wrapper returning None, after
which `return True` still executes.) -/
def is_element_present (f : Nat → Except Ex Element) : Except Ex Bool :=
  match (wait_for_element f).1 with
  | .returned _ => .ok true
  | .fellThrough => .ok true
  | .raised .timeout => .ok false
  | .raised .noSuchElement => .ok false
  | .raised ex => .error ex

/-- Driver session state: whether self.driver currently holds a session. -/
structure State where
  driver : Option Unit
deriving DecidableEq, Repr

/-- Driver.quit (src/utils/driver.py lines 155-166): if self.driver is
set, call driver.quit() (outcome o), catch and log any exception, and in
the finally block set self.driver to None; if self.driver is already None
the body is skipped. The second component is the call's own outcome, which
is always a normal return. -/
def quit (s : State) (o : Except Ex Unit) : State × Except Ex Unit :=
  match s.driver with
  | none => (s, .ok ())
  | some _ =>
      match o with
      | .ok _ => (⟨none⟩, .ok ())
      | .error _ => (⟨none⟩, .ok ())

end Driver

/-
AuthPage field entry and FieldHandler.verify_field_value
-/

/-- Exceptions observable at the AuthPage interface: a message raised by
the page object itself, or a propagated driver exception. -/
inductive AuthEx where
  | message (msg : String)
  | driver (ex : Ex)
deriving DecidableEq, Repr

namespace AuthPage

/-- AuthPage.enter_username (src/pages/auth_page.py lines 80-106).
r is the outcome of _wait_for_clickable on the username field (which
re-raises on timeout, so the None check after it cannot fire); the field is
cleared, clicked and sent the username; valueAfter is the field's value
attribute read back after entry. If that value is falsy (None or empty) an
exception is raised; the outer except logs and re-raises everything. -/
def enter_username (r : Except Ex Element) (valueAfter : Option String) :
    Except AuthEx Bool :=
  match r with
  | .error ex => .error (.driver ex)
  | .ok _field =>
      if truthyOptStr valueAfter then .ok true
      else .error (.message "Username field is empty after entry")

/-- AuthPage.enter_password (src/pages/auth_page.py lines 108-137).
Same shape as enter_username (with a keyboard-layout switch between click
and send_keys); after entry the password field's value must be truthy and
must differ from the placeholder string, else an exception is raised. -/
def enter_password (r : Except Ex Element) (valueAfter : Option String) :
    Except AuthEx Bool :=
  match r with
  | .error ex => .error (.driver ex)
  | .ok _field =>
      if valueAfter = some "enter password" ∨ truthyOptStr valueAfter = false then
        .error (.message "Password was not entered correctly")
      else .ok true

end AuthPage

namespace FieldHandler

/-- FieldHandler.verify_field_value (src/pages/handlers/field_handler.py
lines 63-81): reads the field's value attribute (getAttr is that call's
outcome, with the attribute's value or None); returns True exactly when it
equals the expected value, False on mismatch, and False when the read
raises. -/
def verify_field_value (getAttr : Except Ex (Option String))
    (expected_value : String) : Bool :=
  match getAttr with
  | .error _ => false
  | .ok actual_value => actual_value = some expected_value

end FieldHandler

/-
AuthPageLocators (src/pages/locators.py): a class of constant
(strategy, selector) pairs; By.XPATH and AppiumBy.XPATH are both the
strategy string "xpath".
-/

/-- A locator: a selector strategy paired with a selector string. -/
structure Locator where
  strategy : String
  selector : String
deriving DecidableEq, Repr

/-- selenium By.XPATH. -/
def By_XPATH : String := "xpath"

/-- appium AppiumBy.XPATH (AppiumBy extends By; same strategy string). -/
def AppiumBy_XPATH : String := "xpath"

namespace AuthPageLocators

def LOGIN_BUTTON : Locator :=
  ⟨By_XPATH, "//XCUIElementTypeButton[@name=\"Log in / Join Wikipedia\"]"⟩

def USERNAME_FIELD : Locator :=
  ⟨By_XPATH, "//XCUIElementTypeTextField[contains(@name, \"username\") or @value=\"enter username\" or @value=\"AutotestUsr\" or @value=\"nonexistent_user\"]"⟩

def PASSWORD_FIELD : Locator :=
  ⟨By_XPATH, "//XCUIElementTypeSecureTextField[contains(@name, \"password\") or @value=\"enter password\" or @value=\"AutotestPwd\" or @value=\"wrong_password\"]"⟩

def REMEMBER_ME_CHECKBOX : Locator :=
  ⟨By_XPATH, "//XCUIElementTypeButton[@name=\"Remember me\"]"⟩

def LOGIN_SUBMIT_BUTTON : Locator :=
  ⟨By_XPATH, "//XCUIElementTypeButton[contains(@name, \"Log in\") or @name=\"Log in\" or @label=\"Log in\"]"⟩

def PROFILE_BUTTON : Locator :=
  ⟨By_XPATH, "//XCUIElementTypeButton[@name=\"profile-button\"]"⟩

def LOGOUT_BUTTON : Locator :=
  ⟨By_XPATH, "//XCUIElementTypeButton[@name=\"Log out\"]"⟩

def CONFIRM_LOGOUT_BUTTON : Locator :=
  ⟨By_XPATH, "//XCUIElementTypeButton[@name=\"Log out\"]"⟩

def SAVE_PASSWORD_DIALOG : Locator :=
  ⟨By_XPATH, "//XCUIElementTypeAlert[@name=\"Save Password?\"]"⟩

def SAVE_PASSWORD_BUTTON : Locator :=
  ⟨By_XPATH, "//XCUIElementTypeButton[@name=\"Save Password\"]"⟩

def SAVE_PASSWORD_NOT_NOW : Locator :=
  ⟨By_XPATH, "//XCUIElementTypeButton[@name=\"Not Now\"]"⟩

def READING_LIST_SYNC_DIALOG : Locator :=
  ⟨By_XPATH, "//XCUIElementTypeAlert[@name=\"Reading list sync\"]"⟩

def READING_LIST_SYNC_BUTTON : Locator :=
  ⟨By_XPATH, "//XCUIElementTypeButton[@name=\"Turn on\"]"⟩

def DONE_BUTTON : Locator :=
  ⟨By_XPATH, "//XCUIElementTypeButton[@name=\"Done\"]"⟩

def NEXT_KEYBOARD_BUTTON : Locator :=
  ⟨By_XPATH, "//XCUIElementTypeButton[@name=\"Next keyboard\"]"⟩

def ERROR_MESSAGE : Locator :=
  ⟨AppiumBy_XPATH, "//XCUIElementTypeStaticText[contains(@name, \"error\") or contains(@name, \"incorrect\") or contains(@name, \"invalid\")]"⟩

def CAPTCHA_TEXT : Locator :=
  ⟨By_XPATH, "//XCUIElementTypeStaticText[contains(@name, \"CAPTCHA security check\")]"⟩

def CAPTCHA_CANCEL_BUTTON : Locator :=
  ⟨By_XPATH, "//XCUIElementTypeButton[@name=\"Cancel\"]"⟩

/-- All class attributes of AuthPageLocators, in source order. -/
def all : List Locator :=
  [LOGIN_BUTTON, USERNAME_FIELD, PASSWORD_FIELD, REMEMBER_ME_CHECKBOX,
   LOGIN_SUBMIT_BUTTON, PROFILE_BUTTON, LOGOUT_BUTTON, CONFIRM_LOGOUT_BUTTON,
   SAVE_PASSWORD_DIALOG, SAVE_PASSWORD_BUTTON, SAVE_PASSWORD_NOT_NOW,
   READING_LIST_SYNC_DIALOG, READING_LIST_SYNC_BUTTON, DONE_BUTTON,
   NEXT_KEYBOARD_BUTTON, ERROR_MESSAGE, CAPTCHA_TEXT, CAPTCHA_CANCEL_BUTTON]

end AuthPageLocators

/-- A concrete element used to instantiate hypotheses in witnesses. -/
def sampleElem : Element :=
  { text := "Log in", displayed := true, enabled := true,
    attrs := [("value", "AutotestUsr")] }

/-
Claim theorems
-/

/-- Claim C1: for every execution of clear_all_possible_inputs, in
FieldHandler and in AuthPage, the returned statistics satisfy
fields_found = fields_cleared + fields_failed, whatever the individual
clear outcomes are and also when finding the fields raises. -/
theorem c1_clear_stats_invariant (find : Except Ex (List Bool)) :
    ((FieldHandler.clear_all_possible_inputs find).fields_found
        = (FieldHandler.clear_all_possible_inputs find).fields_cleared
          + (FieldHandler.clear_all_possible_inputs find).fields_failed)
    ∧ ∃ stats, AuthPage.clear_all_possible_inputs find = .ok stats
        ∧ stats.fields_found = stats.fields_cleared + stats.fields_failed := by
  cases find with
  | error ex =>
      exact ⟨by simp [FieldHandler.clear_all_possible_inputs],
        ⟨⟨0, 0, 0⟩, rfl, by simp⟩⟩
  | ok fields =>
      have h := clearStep_foldl_spec fields ⟨(fields.length : Int), 0, 0⟩
      constructor
      · simp only [FieldHandler.clear_all_possible_inputs]
        rw [h.1, h.2]
        simp
      · refine ⟨fields.foldl clearStep ⟨(fields.length : Int), 0, 0⟩, rfl, ?_⟩
        rw [h.1, h.2]
        simp

/-- Claim C10: AuthPage.clear_all_possible_inputs never raises: for every
outcome of the lookups and clears it returns a dictionary with exactly the
keys fields_found, fields_cleared, fields_failed, all values non-negative,
and all zero in the failure branch. -/
theorem c10_auth_clear_total (find : Except Ex (List Bool)) :
    ∃ stats, AuthPage.clear_all_possible_inputs find = .ok stats
      ∧ stats.toDict.map Prod.fst
          = ["fields_found", "fields_cleared", "fields_failed"]
      ∧ 0 ≤ stats.fields_found ∧ 0 ≤ stats.fields_cleared
      ∧ 0 ≤ stats.fields_failed
      ∧ (∀ ex, find = .error ex → stats = ⟨0, 0, 0⟩) := by
  cases find with
  | error ex =>
      exact ⟨⟨0, 0, 0⟩, rfl, rfl, le_refl 0, le_refl 0, le_refl 0,
        fun _ _ => rfl⟩
  | ok fields =>
      have h := clearStep_foldl_nonneg fields ⟨(fields.length : Int), 0, 0⟩
        (by simp) (by simp) (by simp)
      exact ⟨fields.foldl clearStep ⟨(fields.length : Int), 0, 0⟩, rfl, rfl,
        h.1, h.2.1, h.2.2, fun ex hex => by cases hex⟩

/-- Witness for c10_auth_clear_total at the concrete failure input. -/
theorem c10_auth_clear_total_witness :
    AuthPage.clear_all_possible_inputs (.error .timeout) = .ok ⟨0, 0, 0⟩ := by
  obtain ⟨stats, h1, _, _, _, _, h2⟩ := c10_auth_clear_total (.error .timeout)
  rw [h1, h2 .timeout rfl]

/-- Claim C9: Driver.quit never raises, always leaves self.driver = None,
and is idempotent: a second quit is a no-op, so quit after quit has the
same effect on the state as a single quit. -/
theorem c9_quit_idempotent (s : Driver.State) (o o2 : Except Ex Unit) :
    (Driver.quit s o).2 = .ok ()
    ∧ ((Driver.quit s o).1).driver = none
    ∧ (Driver.quit (Driver.quit s o).1 o2).1 = (Driver.quit s o).1
    ∧ (Driver.quit (Driver.quit s o).1 o2).2 = .ok () := by
  obtain ⟨d⟩ := s
  cases d <;> cases o <;> cases o2 <;>
    exact ⟨rfl, rfl, rfl, rfl⟩

/-- Claim C7: every class attribute of AuthPageLocators is a constant
(strategy, selector-string) pair; the table has 18 entries, each using the
xpath strategy with a nonempty selector string. Each entry is a plain
definition, and no operation of the embedded program writes to any of
them. -/
theorem c7_locators_static :
    AuthPageLocators.all.length = 18
    ∧ AuthPageLocators.all.all
        (fun l => l.strategy == By_XPATH && l.selector != "") = true := by
  exact ⟨rfl, rfl⟩

/-- Claim C8: BaseHandler._wait_for_visible and
BaseHandler._wait_for_clickable never propagate TimeoutException: they
return the element on success and None on timeout, unlike
BasePage._wait_for_element, which re-raises the timeout. -/
theorem c8_handler_waits_swallow_timeout (r : Except Ex Element) (e : Element) :
    (r = .error .timeout →
      BaseHandler.wait_for_visible r = .ok none
      ∧ BaseHandler.wait_for_clickable r = .ok none)
    ∧ (r = .ok e →
      BaseHandler.wait_for_visible r = .ok (some e)
      ∧ BaseHandler.wait_for_clickable r = .ok (some e))
    ∧ BaseHandler.wait_for_visible r ≠ .error .timeout
    ∧ BaseHandler.wait_for_clickable r ≠ .error .timeout
    ∧ (BasePage.wait_for_element (.error .timeout)).1 = .error .timeout := by
  refine ⟨fun h => by subst h; exact ⟨rfl, rfl⟩,
    fun h => by subst h; exact ⟨rfl, rfl⟩, ?_, ?_, rfl⟩ <;>
  · cases r with
    | ok a => simp [BaseHandler.wait_for_visible, BaseHandler.wait_for_clickable]
    | error ex =>
        cases ex <;>
          simp [BaseHandler.wait_for_visible, BaseHandler.wait_for_clickable]

/-- Witness for c8_handler_waits_swallow_timeout at the timeout input. -/
theorem c8_handler_waits_swallow_timeout_witness :
    BaseHandler.wait_for_visible (.error .timeout) = .ok none
    ∧ BaseHandler.wait_for_clickable (.error .timeout) = .ok none :=
  (c8_handler_waits_swallow_timeout (.error .timeout) sampleElem).1 rfl

/-- Claim C2: a retry_on_failure(max_attempts, delay)-wrapped function is
called at most max_attempts times; the wrapper returns the wrapped
function's result on the first call that does not raise (after delay
seconds of sleep per preceding failure), and re-raises the exception of the
final attempt after max_attempts consecutive failures. -/
theorem c2_retry_on_failure_spec {ε α : Type} (max_attempts delay : Nat)
    (f : Nat → Except ε α) :
    (retry_on_failure max_attempts delay f).2.1 ≤ max_attempts
    ∧ (∀ j a, j < max_attempts → (∀ k, k < j → ∃ e, f k = .error e) →
        f j = .ok a →
        retry_on_failure max_attempts delay f = (.returned a, j + 1, j * delay))
    ∧ (1 ≤ max_attempts → (∀ k, k < max_attempts → ∃ e, f k = .error e) →
        ∃ e, f (max_attempts - 1) = .error e
          ∧ retry_on_failure max_attempts delay f
              = (.raised e, max_attempts, (max_attempts - 1) * delay)) := by
  refine ⟨?_, ?_, ?_⟩
  · simpa [retry_on_failure] using retryGo_calls_le f max_attempts 0
  · intro j a hj hfail hok
    have h := retryGo_first_success f j max_attempts 0 a hj
      (fun k hk => by simpa using hfail k hk) (by simpa using hok)
    simp [retry_on_failure, h, Nat.mul_comm]
  · intro h1 hfail
    obtain ⟨e, he, hr⟩ := retryGo_all_fail f max_attempts 0 h1
      (fun k hk => by simpa using hfail k hk)
    exact ⟨e, by simpa using he, by simp [retry_on_failure, hr, Nat.mul_comm]⟩

/-- An attempt sequence whose first call raises TimeoutException and whose
second call succeeds. -/
def flakySeq : Nat → Except Ex Element :=
  fun k => if k = 0 then .error .timeout else .ok sampleElem

/-- Witness for c2_retry_on_failure_spec: with the defaults, one timeout
followed by a success yields the success after 2 calls and 1 second of
sleep. -/
theorem c2_retry_on_failure_spec_witness :
    retry_on_failure 3 1 flakySeq = (.returned sampleElem, 2, 1) := by
  have h := (c2_retry_on_failure_spec 3 1 flakySeq).2.1 1 sampleElem
    (by omega)
    (fun k hk => ⟨.timeout, by
      have hk0 : k = 0 := by omega
      subst hk0; rfl⟩)
    rfl
  simpa using h

/-- A session-attempt sequence whose first attempt fails and whose later
attempts would succeed. -/
def sessionSeq : Nat → Except Ex Unit :=
  fun k => if k = 0 then .error (.webdriver "connection refused") else .ok ()

/-- Counterexample to claim C3 as stated: a failure inside
Driver.init_driver is not retried. With a first session attempt that fails
and a second that would succeed, init_driver makes exactly one attempt and
propagates the exception, while the retry semantics the claim asserts
(retry_on_failure with the fixed 3 attempts) would have returned success
after 2 calls. -/
theorem c3_init_not_retried_counterexample :
    Driver.init_driver sessionSeq
        = (.raised (.webdriver "connection refused"), 1, 0)
    ∧ retry_on_failure 3 1 sessionSeq = (.returned (), 2, 1)
    ∧ Driver.init_driver sessionSeq ≠ retry_on_failure 3 1 sessionSeq := by
  refine ⟨rfl, rfl, ?_⟩
  decide

/-- Claim C3 amended: the fixed-count retry decorator wraps
Driver.wait_for_element, whose failures are retried up to 3 attempts before
the exception propagates; Driver.init_driver carries no retry decorator,
so a failure there is logged and re-raised after a single attempt. -/
theorem c3_retry_wraps_element_waits_only (f : Nat → Except Ex Element)
    (g : Nat → Except Ex Unit) (e : Ex) (a : Element) :
    (g 0 = .error e → Driver.init_driver g = (.raised e, 1, 0))
    ∧ (g 0 = .ok () → Driver.init_driver g = (.returned (), 1, 0))
    ∧ ((∃ e0, f 0 = .error e0) → f 1 = .ok a →
        Driver.wait_for_element f = (.returned a, 2, 1))
    ∧ ((∀ k, k < 3 → ∃ e2, f k = .error e2) →
        ∃ e2, f 2 = .error e2
          ∧ Driver.wait_for_element f = (.raised e2, 3, 2)) := by
  refine ⟨fun h => by simp [Driver.init_driver, h],
    fun h => by simp [Driver.init_driver, h], ?_, ?_⟩
  · rintro ⟨e0, he0⟩ hok
    have h := retryGo_first_success f 1 3 0 a (by omega)
      (fun k hk => ⟨e0, by
        have hk0 : k = 0 := by omega
        subst hk0; simpa using he0⟩)
      (by simpa using hok)
    simp [Driver.wait_for_element, retry_on_failure, h]
  · intro hfail
    obtain ⟨e2, he2, hr⟩ := retryGo_all_fail f 3 0 (by omega)
      (fun k hk => by simpa using hfail k hk)
    exact ⟨e2, by simpa using he2,
      by simp [Driver.wait_for_element, retry_on_failure, hr]⟩

/-- A wait-attempt sequence for the C3 witness: first wait times out, the
second finds the element. -/
def waitSeq : Nat → Except Ex Element :=
  fun k => if k = 0 then .error .timeout else .ok sampleElem

/-- Witness for c3_retry_wraps_element_waits_only at concrete attempt
sequences. -/
theorem c3_retry_wraps_element_waits_only_witness :
    Driver.init_driver sessionSeq
        = (.raised (.webdriver "connection refused"), 1, 0)
    ∧ Driver.wait_for_element waitSeq = (.returned sampleElem, 2, 1) := by
  have h := c3_retry_wraps_element_waits_only waitSeq sessionSeq
    (.webdriver "connection refused") sampleElem
  exact ⟨h.1 rfl, h.2.2.1 ⟨.timeout, rfl⟩ rfl⟩

/-- Claim C4: the boolean and value helpers convert caught
element-not-found/timeout failures into sentinels: _is_element_present,
_is_element_visible and Driver.is_element_present return False, and
_get_element_text and _get_element_attribute return None, whenever the
underlying wait raises TimeoutException or NoSuchElementException; on
success they return True (the visibility wait only succeeds on a displayed
element) or the element's text/attribute value. -/
theorem c4_sentinel_conversion (r : Except Ex Element) (e : Element)
    (name : String) (f : Nat → Except Ex Element) :
    ((r = .error .timeout ∨ r = .error .noSuchElement) →
      BasePage.is_element_present r = .ok false
      ∧ BasePage.is_element_visible r = .ok false
      ∧ BasePage.get_element_text r = .ok none
      ∧ BasePage.get_element_attribute r name = .ok none)
    ∧ (r = .ok e →
      BasePage.is_element_present r = .ok true
      ∧ BasePage.is_element_visible r = .ok e.displayed
      ∧ (e.displayed = true → BasePage.is_element_visible r = .ok true)
      ∧ BasePage.get_element_text r = .ok (some e.text)
      ∧ BasePage.get_element_attribute r name = .ok (e.get_attribute name))
    ∧ ((∀ k, k < 3 → f k = .error .timeout ∨ f k = .error .noSuchElement) →
      Driver.is_element_present f = .ok false)
    ∧ (f 0 = .ok e → Driver.is_element_present f = .ok true) := by
  refine ⟨?_, ?_, ?_, ?_⟩
  · rintro (rfl | rfl) <;> exact ⟨rfl, rfl, rfl, rfl⟩
  · rintro rfl
    refine ⟨rfl, rfl, fun hd => ?_, rfl, rfl⟩
    simp [BasePage.is_element_visible, BasePage.wait_for_visible,
      BasePage.wait_for_element, hd]
  · intro h
    obtain ⟨e2, he2, hr⟩ := retryGo_all_fail f 3 0 (by omega)
      (fun k hk => by
        rcases h k hk with h1 | h1 <;> exact ⟨_, by simpa using h1⟩)
    norm_num at he2
    have hf2 := h 2 (by omega)
    have he2t : e2 = .timeout ∨ e2 = .noSuchElement := by
      rcases hf2 with h1 | h1 <;>
        · rw [h1] at he2
          injection he2 with h3
          exact by simp [h3]
    simp only [Driver.is_element_present, Driver.wait_for_element,
      retry_on_failure, hr]
    rcases he2t with rfl | rfl <;> rfl
  · intro h
    simp [Driver.is_element_present, Driver.wait_for_element,
      retry_on_failure, retryGo, h]

/-- Witness for c4_sentinel_conversion at the timeout input. -/
theorem c4_sentinel_conversion_witness :
    BasePage.is_element_present (.error .timeout) = .ok false
    ∧ BasePage.is_element_visible (.error .timeout) = .ok false
    ∧ BasePage.get_element_text (.error .timeout) = .ok none
    ∧ BasePage.get_element_attribute (.error .timeout) "value" = .ok none :=
  (c4_sentinel_conversion (.error .timeout) sampleElem "value"
    (fun _ => .ok sampleElem)).1 (Or.inl rfl)

/-- Claim C5: a wait blocks at most its fixed timeout; when the expected
condition is not met within the timeout, BasePage._wait_for_element logs
and re-raises the TimeoutException, and otherwise it returns the found
element; the retried Driver.wait_for_element also ends in TimeoutException
when every attempt times out. The fixed defaults are 10 seconds, and 5
seconds for the presence/visibility checks. -/
theorem c5_wait_timeout_behavior (s : WaitScenario) (timeout : Nat)
    (f : Nat → Except Ex Element) :
    (webDriverWait_until timeout s).2 ≤ timeout
    ∧ ((∀ t, s.condMetAt = some t → timeout < t) →
        BasePage.wait_for_element (webDriverWait_until timeout s).1
          = (.error .timeout,
             ["Timeout waiting for element", "Current page source"]))
    ∧ (∀ t, s.condMetAt = some t → t ≤ timeout →
        BasePage.wait_for_element (webDriverWait_until timeout s).1
          = (.ok s.elem, []))
    ∧ ((∀ k, k < 3 → f k = .error .timeout) →
        (Driver.wait_for_element f).1 = .raised .timeout)
    ∧ BasePage.default_timeout = 10 ∧ BasePage.check_timeout = 5
    ∧ Driver.wait_timeout = 10 ∧ Driver.presence_timeout = 5 := by
  refine ⟨?_, ?_, ?_, ?_, rfl, rfl, rfl, rfl⟩
  · cases hc : s.condMetAt with
    | none => simp [webDriverWait_until, hc]
    | some t =>
        by_cases ht : t ≤ timeout <;>
          simp [webDriverWait_until, hc, ht]
  · intro h
    cases hc : s.condMetAt with
    | none => simp [webDriverWait_until, hc, BasePage.wait_for_element]
    | some t =>
        have := h t hc
        simp [webDriverWait_until, hc, Nat.not_le.mpr this,
          BasePage.wait_for_element]
  · intro t ht hle
    simp [webDriverWait_until, ht, hle, BasePage.wait_for_element]
  · intro h
    obtain ⟨e2, he2, hr⟩ := retryGo_all_fail f 3 0 (by omega)
      (fun k hk => ⟨.timeout, by simpa using h k hk⟩)
    norm_num at he2
    have he2t : e2 = Ex.timeout := by
      rw [h 2 (by omega)] at he2
      injection he2 with h3
      exact h3.symm
    subst he2t
    simp [Driver.wait_for_element, retry_on_failure, hr]

/-- Witness for c5_wait_timeout_behavior: an element whose condition is
first met at 12 seconds makes the 10-second wait raise TimeoutException
after logging. -/
theorem c5_wait_timeout_behavior_witness :
    BasePage.wait_for_element
        (webDriverWait_until 10 ⟨sampleElem, some 12⟩).1
      = (.error .timeout,
         ["Timeout waiting for element", "Current page source"]) :=
  (c5_wait_timeout_behavior ⟨sampleElem, some 12⟩ 10
      (fun _ => .error .timeout)).2.1
    (fun t ht => by injection ht with h; omega)

/-- Claim C6: a field value mismatch after entry fails the operation:
enter_username raises when the username field's value is empty (or absent)
after entry; enter_password raises when the password field's value after
entry is empty, absent, or still the placeholder; verify_field_value
returns True exactly when the value attribute equals the expected value,
and False on mismatch or on any exception. -/
theorem c6_field_value_mismatch (e : Element) (v : Option String)
    (getAttr : Except Ex (Option String)) (expected_value s : String) :
    ((v = none ∨ v = some "") →
      AuthPage.enter_username (.ok e) v
        = .error (.message "Username field is empty after entry"))
    ∧ (s ≠ "" → AuthPage.enter_username (.ok e) (some s) = .ok true)
    ∧ ((v = none ∨ v = some "" ∨ v = some "enter password") →
      AuthPage.enter_password (.ok e) v
        = .error (.message "Password was not entered correctly"))
    ∧ (s ≠ "" → s ≠ "enter password" →
      AuthPage.enter_password (.ok e) (some s) = .ok true)
    ∧ (FieldHandler.verify_field_value getAttr expected_value = true
        ↔ getAttr = .ok (some expected_value)) := by
  refine ⟨?_, ?_, ?_, ?_, ?_⟩
  · rintro (rfl | rfl) <;> rfl
  · intro hs
    simp [AuthPage.enter_username, truthyOptStr, hs]
  · rintro (rfl | rfl | rfl) <;>
      simp [AuthPage.enter_password, truthyOptStr]
  · intro hs hs2
    simp [AuthPage.enter_password, truthyOptStr, hs, hs2]
  · cases getAttr with
    | error ex => simp [FieldHandler.verify_field_value]
    | ok actual => simp [FieldHandler.verify_field_value]

/-- Witness for c6_field_value_mismatch at concrete values. -/
theorem c6_field_value_mismatch_witness :
    AuthPage.enter_username (.ok sampleElem) (some "")
        = .error (.message "Username field is empty after entry")
    ∧ AuthPage.enter_username (.ok sampleElem) (some "AutotestUsr") = .ok true
    ∧ AuthPage.enter_password (.ok sampleElem) (some "enter password")
        = .error (.message "Password was not entered correctly")
    ∧ AuthPage.enter_password (.ok sampleElem) (some "AutotestPwd") = .ok true := by
  have h1 := c6_field_value_mismatch sampleElem (some "")
    (.ok (some "AutotestUsr")) "AutotestUsr" "AutotestUsr"
  have h2 := c6_field_value_mismatch sampleElem (some "enter password")
    (.ok (some "AutotestPwd")) "AutotestPwd" "AutotestPwd"
  exact ⟨h1.1 (Or.inr rfl), h1.2.1 (by decide),
    h2.2.2.1 (Or.inr (Or.inr rfl)), h2.2.2.2.1 (by decide) (by decide)⟩

end WikiTests
